import Mathlib

/-
Verification of the clanker-sdk deployment compiler against its design
specification.  The TypeScript sources are shallowly embedded: BigInt
arithmetic becomes Nat arithmetic, thrown exceptions become Except, and
result-tuple records become explicit structures with Option fields.
Source locations are cited next to each definition.
-/

/-! ## Basic helpers -/

-- Addresses, hashes and hex blobs are modelled as strings.
abbrev Address := String

-- Substring test, used to model the JavaScript String.prototype.includes.
def charListHasPre : List Char → List Char → Bool
  | [], _ => true
  | _ :: _, [] => false
  | a :: as, b :: bs => a == b && charListHasPre as bs

def charListHasSub (needle : List Char) : List Char → Bool
  | [] => charListHasPre needle []
  | b :: bs => charListHasPre needle (b :: bs) || charListHasSub needle bs

def strContains (hay needle : String) : Bool :=
  charListHasSub needle.data hay.data

/-! ## Pool position schema (src/config/clankerTokenV4.ts lines 80-121)

The zod pool object: field-level checks on each position (positionBps
between 0 and 10_000), an array minimum of one element, the positions-sum
refine, and the two object-level refines (one position touching the
starting tick; all ticks multiples of the tick spacing).  A zod refine
passes exactly when its callback returns a truthy value; for a JavaScript
number that means nonzero. -/

structure PoolPosition where
  tickLower : Int
  tickUpper : Int
  positionBps : Nat
deriving DecidableEq

structure PoolConfig where
  tickIfToken0IsClanker : Int
  tickSpacing : Int
  positions : List PoolPosition
deriving DecidableEq

-- positionBps has z.number().min(0).max(10_000); min 0 is implicit in Nat.
def positionFieldsValid (p : PoolPosition) : Bool :=
  decide (p.positionBps ≤ 10000)

-- The value returned by the refine callback at line 101:
-- v.reduce((agg, cur) => agg + cur.positionBps, 10_000)
def positionsReduceValue (ps : List PoolPosition) : Nat :=
  ps.foldl (fun agg cur => agg + cur.positionBps) 10000

-- zod treats the returned number as a boolean: the refine passes iff it is
-- truthy, i.e. nonzero.
def positionsSumRefinePasses (ps : List PoolPosition) : Bool :=
  positionsReduceValue ps != 0

-- Plain sum of the basis points, for stating what the list actually sums to.
def positionsBpsSum (ps : List PoolPosition) : Nat :=
  ps.foldl (fun agg cur => agg + cur.positionBps) 0

def poolSchemaAccepts (pool : PoolConfig) : Bool :=
  decide (1 ≤ pool.positions.length) &&
  pool.positions.all positionFieldsValid &&
  positionsSumRefinePasses pool.positions &&
  pool.positions.any (fun p => p.tickLower == pool.tickIfToken0IsClanker) &&
  pool.positions.all (fun p =>
    p.tickLower % pool.tickSpacing == 0 && p.tickUpper % pool.tickSpacing == 0)

-- A pool whose single position carries 9,999 bps (ticks aligned to the
-- default spacing 200 and touching the default starting tick -230400).
def poolSumming9999 : PoolConfig :=
  { tickIfToken0IsClanker := -230400
    tickSpacing := 200
    positions := [{ tickLower := -230400, tickUpper := -230200, positionBps := 9999 }] }

-- A pool whose two positions carry 5,000 + 5,001 = 10,001 bps.
def poolSumming10001 : PoolConfig :=
  { tickIfToken0IsClanker := -230400
    tickSpacing := 200
    positions :=
      [{ tickLower := -230400, tickUpper := -230200, positionBps := 5000 },
       { tickLower := -230400, tickUpper := -230000, positionBps := 5001 }] }

lemma le_positions_foldl (ps : List PoolPosition) (n : Nat) :
    n ≤ ps.foldl (fun agg cur => agg + cur.positionBps) n := by
  induction ps generalizing n with
  | nil => exact Nat.le_refl n
  | cons p ps ih =>
    exact Nat.le_trans (Nat.le_add_right n p.positionBps) (ih (n + p.positionBps))

/-- Claim C1: the spec requires the liquidity-position validation to accept a
position list only when its basis points sum to exactly 10,000 and to reject
sums of 9,999 and 10,001.  The code is a slip: the refine callback at
clankerTokenV4.ts line 101 returns the reduce value seeded with 10,000
instead of comparing it with 10,000 (contrast the reward-recipient check at
line 274, which does compare with 10,000, and the refine error message
itself).  Since position basis points are nonnegative, the returned number
is always at least 10,000, hence always truthy, so the refine never rejects
any list: the schema accepts the 9,999 and the 10,001 pools. -/
theorem positions_sum_refine_accepts_invalid_sums :
    positionsBpsSum poolSumming9999.positions = 9999 ∧
    poolSchemaAccepts poolSumming9999 = true ∧
    positionsBpsSum poolSumming10001.positions = 10001 ∧
    poolSchemaAccepts poolSumming10001 = true ∧
    (∀ ps : List PoolPosition, positionsSumRefinePasses ps = true) := by
  refine ⟨by decide, by decide, by decide, by decide, ?_⟩
  intro ps
  have h := le_positions_foldl ps 10000
  simp only [positionsSumRefinePasses, positionsReduceValue, bne_iff_ne, ne_eq]
  omega

/-! ## Basis-point airdrop allocator (src/config/clankerTokenV4.ts lines 333-356) -/

/-- Modelled from the spec: the sources import the constant `DEFAULT_SUPPLY`
from src/constants.ts, a file absent from the repository snapshot.  Spec
section 8 fixes the total supply at S = 100,000,000,000 whole tokens, and
the schema divides DEFAULT_SUPPLY by 1e18 to express whole-token bounds, so
the constant is the supply in wei (18 decimals).  The allocator theorems
below are proved through supply-generic lemmas that only require the supply
to be positive, so they do not depend on the exact value chosen here. -/
def DEFAULT_SUPPLY : Nat := 100000000000 * 10 ^ 18

-- Line 333: BigInt(cfg.airdrop?.amount || 0) * BigInt(1e18)
def airdropAmountWei (amountTokens : Nat) : Nat := amountTokens * 10 ^ 18

-- Lines 336-338: floor division plus one extra basis point when the
-- remainder is truthy (nonzero).
def bpsAirdropped (a : Nat) : Nat :=
  a * 10000 / DEFAULT_SUPPLY + (if a * 10000 % DEFAULT_SUPPLY = 0 then 0 else 1)

-- Line 339
def roundingVerificationAirdrop (a : Nat) : Nat :=
  bpsAirdropped a * DEFAULT_SUPPLY / 10000

-- Line 341: airdropAmount > roundingVerificationAirdrop
def roundedAirdropTooLow (a : Nat) : Bool :=
  decide (roundingVerificationAirdrop a < a)

-- Lines 349-350.  The subtraction is only evaluated after the tooLow check
-- has not thrown, i.e. when the verification is at least the amount, so the
-- truncating Nat subtraction agrees with the BigInt subtraction there.
def roundedAirdropTooHigh (a : Nat) : Bool :=
  decide (1 < (roundingVerificationAirdrop a - a) * 10000 / DEFAULT_SUPPLY)

-- The over-allocation comparison as a function of an arbitrary excess.
def excessBpsCheck (e : Nat) : Bool :=
  decide (1 < e * 10000 / DEFAULT_SUPPLY)

inductive AirdropPrecisionError
  | tooLow
  | tooHigh
deriving DecidableEq

-- The airdrop section of clankerTokenV4Converter (lines 333-356): compute
-- the share, throw on under-allocation, throw on excessive over-allocation,
-- otherwise continue with the share.
def airdropBpsStep (amountTokens : Nat) : Except AirdropPrecisionError Nat :=
  let a := airdropAmountWei amountTokens
  if roundedAirdropTooLow a then .error .tooLow
  else if roundedAirdropTooHigh a then .error .tooHigh
  else .ok (bpsAirdropped a)

lemma default_supply_pos : 0 < DEFAULT_SUPPLY := by
  norm_num [DEFAULT_SUPPLY]

-- Floor division plus a remainder indicator is the ceiling division.
lemma div_add_indicator_eq_ceil (S x : Nat) (hS : 0 < S) :
    x / S + (if x % S = 0 then 0 else 1) = (x + S - 1) / S := by
  obtain ⟨q, r, hrS, rfl⟩ : ∃ q r, r < S ∧ x = S * q + r :=
    ⟨x / S, x % S, Nat.mod_lt _ hS, (Nat.div_add_mod x S).symm⟩
  rw [Nat.mul_add_div hS, Nat.mul_add_mod, Nat.div_eq_of_lt hrS, Nat.mod_eq_of_lt hrS]
  by_cases hr0 : r = 0
  · subst hr0
    have h1 : S * q + 0 + S - 1 = S * q + (S - 1) := by
      generalize S * q = t
      omega
    rw [h1, Nat.mul_add_div hS, Nat.div_eq_of_lt (by omega)]
    simp
  · have h1 : S * q + r + S - 1 = S * (q + 1) + (r - 1) := by
      rw [Nat.mul_add, Nat.mul_one]
      generalize S * q = t
      omega
    rw [h1, Nat.mul_add_div hS, Nat.div_eq_of_lt (by omega)]
    simp [hr0]

-- The ceiling share times the supply is at least the original quantity.
lemma ceil_share_mul_ge (S x : Nat) (hS : 0 < S) :
    x ≤ (x / S + (if x % S = 0 then 0 else 1)) * S := by
  obtain ⟨q, r, hrS, rfl⟩ : ∃ q r, r < S ∧ x = S * q + r :=
    ⟨x / S, x % S, Nat.mod_lt _ hS, (Nat.div_add_mod x S).symm⟩
  rw [Nat.mul_add_div hS, Nat.mul_add_mod, Nat.div_eq_of_lt hrS, Nat.mod_eq_of_lt hrS]
  by_cases hr0 : r = 0
  · subst hr0
    simp [Nat.mul_comm]
  · rw [Nat.add_zero, if_neg hr0, Nat.add_mul, Nat.one_mul, Nat.mul_comm S q]
    omega

lemma airdrop_verification_ge (a : Nat) : a ≤ roundingVerificationAirdrop a := by
  have h1 : a * 10000 ≤ bpsAirdropped a * DEFAULT_SUPPLY := by
    simpa [bpsAirdropped] using
      ceil_share_mul_ge DEFAULT_SUPPLY (a * 10000) default_supply_pos
  have h2 : a * 10000 / 10000 ≤ bpsAirdropped a * DEFAULT_SUPPLY / 10000 :=
    Nat.div_le_div_right h1
  rwa [Nat.mul_div_cancel a (by norm_num)] at h2

lemma rounded_airdrop_too_low_false (a : Nat) : roundedAirdropTooLow a = false := by
  simp [roundedAirdropTooLow, Nat.not_lt.mpr (airdrop_verification_ge a)]

/-- Claim C2: for every requested airdrop amount A (whole tokens, scaled to
wei as a = A * 10^18) the computed share equals the ceiling of
a * 10000 / DEFAULT_SUPPLY (stated as the standard ceiling formula
(x + S - 1) / S), the verified lock-equivalent quantity is at least a, the
under-allocation comparison at clankerTokenV4.ts line 341 is false, and the
converter step therefore never raises the under-allocation PrecisionError. -/
theorem airdrop_share_ceiling_never_under_allocates (A : Nat) :
    bpsAirdropped (airdropAmountWei A) =
      (airdropAmountWei A * 10000 + DEFAULT_SUPPLY - 1) / DEFAULT_SUPPLY ∧
    airdropAmountWei A ≤ roundingVerificationAirdrop (airdropAmountWei A) ∧
    roundedAirdropTooLow (airdropAmountWei A) = false ∧
    airdropBpsStep A ≠ Except.error AirdropPrecisionError.tooLow := by
  refine ⟨?_, airdrop_verification_ge _, rounded_airdrop_too_low_false _, ?_⟩
  · simpa [bpsAirdropped] using
      div_add_indicator_eq_ceil DEFAULT_SUPPLY (airdropAmountWei A * 10000)
        default_supply_pos
  · simp only [airdropBpsStep, rounded_airdrop_too_low_false, if_false, Bool.false_eq_true]
    by_cases h : roundedAirdropTooHigh (airdropAmountWei A) = true <;> simp [h]

/-- Claim C3: the converter raises the over-allocation PrecisionError exactly
when the truncating comparison (v - a) * 10000 / DEFAULT_SUPPLY > 1 holds,
where a is the requested amount in wei and v the verified quantity; and
because the comparison truncates, any excess whose exact value lies strictly
between one and two true basis points (S < e * 10000 < 2 * S) does not trip
the check. -/
theorem airdrop_over_allocation_check_truncates :
    (∀ A : Nat,
      airdropBpsStep A = Except.error AirdropPrecisionError.tooHigh ↔
        excessBpsCheck
          (roundingVerificationAirdrop (airdropAmountWei A) - airdropAmountWei A) = true) ∧
    (∀ e : Nat, DEFAULT_SUPPLY < e * 10000 → e * 10000 < 2 * DEFAULT_SUPPLY →
      excessBpsCheck e = false) := by
  constructor
  · intro A
    have hcheck : roundedAirdropTooHigh (airdropAmountWei A) =
        excessBpsCheck
          (roundingVerificationAirdrop (airdropAmountWei A) - airdropAmountWei A) := rfl
    simp only [airdropBpsStep, rounded_airdrop_too_low_false, if_false, Bool.false_eq_true,
      ← hcheck]
    by_cases h : roundedAirdropTooHigh (airdropAmountWei A) = true <;> simp [h]
  · intro e h1 h2
    have hdiv : e * 10000 / DEFAULT_SUPPLY = 1 :=
      Nat.div_eq_of_lt_le (by omega) (by omega)
    simp [excessBpsCheck, hdiv]

/-- Witness for C3: the excess e = 10^25 + 1 satisfies
S < e * 10000 < 2 * S for S = DEFAULT_SUPPLY (its exact value is strictly
between one and two true basis points), and the truncating check lets it
through. -/
theorem airdrop_over_allocation_check_truncates_witness :
    DEFAULT_SUPPLY < (10 ^ 25 + 1) * 10000 ∧
    (10 ^ 25 + 1) * 10000 < 2 * DEFAULT_SUPPLY ∧
    excessBpsCheck (10 ^ 25 + 1) = false :=
  ⟨by norm_num [DEFAULT_SUPPLY], by norm_num [DEFAULT_SUPPLY],
    airdrop_over_allocation_check_truncates.2 (10 ^ 25 + 1)
      (by norm_num [DEFAULT_SUPPLY]) (by norm_num [DEFAULT_SUPPLY])⟩

/-! ## Deployment target configuration (src/utils/clankers.ts shape used by
clankerTokenV4.ts) and the v4 token configuration after schema parsing. -/

structure RelatedV4 where
  locker : Address
  vault : Address
  airdrop : Address
  devbuy : Address
  devbuyV3 : Option Address
  feeStaticHook : Address
  feeDynamicHook : Address
  feeStaticHookV2 : Option Address
  feeDynamicHookV2 : Option Address
deriving DecidableEq

structure ClankerDeploymentV4 where
  address : Address
  related : RelatedV4
deriving DecidableEq

structure PoolKey where
  currency0 : Address
  currency1 : Address
  fee : Nat
  tickSpacing : Int
  hooks : Address
deriving DecidableEq

structure VaultConfig where
  percentage : Nat
  lockupDuration : Nat
  vestingDuration : Nat
  recipient : Option Address
deriving DecidableEq

structure AirdropConfig where
  admin : Option Address
  merkleRoot : String
  lockupDuration : Nat
  vestingDuration : Nat
  amount : Nat
deriving DecidableEq

-- devBuy discriminated union (clankerTokenV4.ts lines 165-202); amounts are
-- kept in whole ETH and scaled by 1e18 at encoding time, as in the source.
inductive DevBuyConfig
  | v4 (ethAmount : Nat) (poolKey : PoolKey) (amountOutMin : Nat)
  | v3 (ethAmount : Nat) (v3PoolFee : Nat) (amountOutMin : Nat)
deriving DecidableEq

-- fees discriminated union (clankerTokenV4.ts lines 204-237).
inductive FeesConfig
  | static (clankerFee pairedFee : Nat)
  | dynamic (baseFee maxFee referenceTickFilterPeriod resetPeriod : Nat)
      (resetTickFilter : Int) (feeControlNumerator decayFilterBps : Nat)
deriving DecidableEq

-- The fields of the parsed v4 token configuration consumed by the fee
-- encoder and the extension composer.
structure TokenConfigV4 where
  tokenAdmin : Address
  poolExtensionAddress : Address
  poolExtensionInitData : String
  pool : PoolConfig
  vault : Option VaultConfig
  airdrop : Option AirdropConfig
  devBuy : Option DevBuyConfig
  fees : FeesConfig
deriving DecidableEq

/-! ## ABI-encoded parameter blocks

encodeAbiParameters applied to a fixed ABI schema is injective per schema;
it is embedded symbolically, one constructor per instantiation ABI used by
clankerTokenV4.ts. -/

inductive EncodedData
  | vaultInstantiation (recipient : Address) (lockupDuration vestingDuration : Nat)
  | airdropInstantiation (admin : Address) (merkleRoot : String)
      (lockupDuration vestingDuration : Nat)
  | univ3EthDevBuy (v3PoolFee : Nat) (amountOutMin : Nat) (recipient : Address)
  | univ4EthDevBuy (poolKey : PoolKey) (amountOutMin : Nat) (recipient : Address)
  | staticFeeHook (clankerFeeUni pairedFeeUni : Nat)
  | dynamicFeeHook (baseFeeUni maxFeeUni referenceTickFilterPeriod resetPeriod : Nat)
      (resetTickFilter : Int) (feeControlNumerator decayFilterBps : Nat)
  | poolInitialization (extension : Address) (extensionData : String)
      (feeData : EncodedData)
deriving DecidableEq

structure ExtensionConfig where
  extension : Address
  msgValue : Nat
  extensionBps : Nat
  extensionData : EncodedData
deriving DecidableEq

inductive ConverterError
  | precisionTooLow
  | precisionTooHigh
  | v3DevBuyUnavailable
deriving DecidableEq

/-! ## DevBuy extension encoder (clankerTokenV4.ts lines 540-590) -/

def encodeDevBuyExtension (cfg : TokenConfigV4) (cc : ClankerDeploymentV4) :
    Except ConverterError (List ExtensionConfig) :=
  match cfg.devBuy with
  | none => .ok []
  | some (.v3 ethAmount v3PoolFee amountOutMin) =>
    match cc.related.devbuyV3 with
    | none => .error .v3DevBuyUnavailable
    | some devbuyV3Addr =>
      .ok [{ extension := devbuyV3Addr
             msgValue := ethAmount * 10 ^ 18
             extensionBps := 0
             extensionData := .univ3EthDevBuy v3PoolFee (amountOutMin * 10 ^ 18)
               cfg.tokenAdmin }]
  | some (.v4 ethAmount poolKey amountOutMin) =>
    .ok [{ extension := cc.related.devbuy
           msgValue := ethAmount * 10 ^ 18
           extensionBps := 0
           extensionData := .univ4EthDevBuy poolKey (amountOutMin * 10 ^ 18)
             cfg.tokenAdmin }]

/-! ## Extension composer (clankerTokenV4.ts lines 410-444) -/

-- Line 333: cfg.airdrop?.amount || 0, scaled to wei.
def cfgAirdropAmountWei (cfg : TokenConfigV4) : Nat :=
  (match cfg.airdrop with
   | some ad => ad.amount
   | none => 0) * 10 ^ 18

def extensionConfigs (cfg : TokenConfigV4) (cc : ClankerDeploymentV4) :
    Except ConverterError (List ExtensionConfig) :=
  match encodeDevBuyExtension cfg cc with
  | .error e => .error e
  | .ok devBuyExts =>
    .ok
      ((match cfg.vault with
        | some v =>
          [{ extension := cc.related.vault
             msgValue := 0
             extensionBps := v.percentage * 100
             extensionData := .vaultInstantiation (v.recipient.getD cfg.tokenAdmin)
               v.lockupDuration v.vestingDuration }]
        | none => []) ++
       (match cfg.airdrop with
        | some ad =>
          [{ extension := cc.related.airdrop
             msgValue := 0
             extensionBps := bpsAirdropped (cfgAirdropAmountWei cfg)
             extensionData := .airdropInstantiation (ad.admin.getD cfg.tokenAdmin)
               ad.merkleRoot ad.lockupDuration ad.vestingDuration }]
        | none => []) ++
       devBuyExts)

inductive ExtensionKind
  | vault
  | airdrop
  | devBuy
  | other
deriving DecidableEq

def extensionKindOf (e : ExtensionConfig) : ExtensionKind :=
  match e.extensionData with
  | .vaultInstantiation _ _ _ => .vault
  | .airdropInstantiation _ _ _ _ => .airdrop
  | .univ3EthDevBuy _ _ _ => .devBuy
  | .univ4EthDevBuy _ _ _ => .devBuy
  | _ => .other

/-- Claim C4: for every combination of optional vault, airdrop and devBuy
settings, the emitted extensionConfigs list is exactly the subsequence
[vault?, airdrop?, devBuy?] in that fixed order, with absent extensions
omitted entirely and never reordered; in particular it is a sublist of the
full three-element order. -/
theorem extension_configs_fixed_order (cfg : TokenConfigV4) (cc : ClankerDeploymentV4)
    (exts : List ExtensionConfig) (h : extensionConfigs cfg cc = Except.ok exts) :
    exts.map extensionKindOf =
      (if cfg.vault.isSome then [ExtensionKind.vault] else []) ++
      (if cfg.airdrop.isSome then [ExtensionKind.airdrop] else []) ++
      (if cfg.devBuy.isSome then [ExtensionKind.devBuy] else []) ∧
    (exts.map extensionKindOf).Sublist
      [ExtensionKind.vault, ExtensionKind.airdrop, ExtensionKind.devBuy] := by
  obtain ⟨admin, pea, ped, pool, vault, airdrop, devBuy, fees⟩ := cfg
  have hmain : exts.map extensionKindOf =
      (if vault.isSome then [ExtensionKind.vault] else []) ++
      (if airdrop.isSome then [ExtensionKind.airdrop] else []) ++
      (if devBuy.isSome then [ExtensionKind.devBuy] else []) := by
    rcases devBuy with _ | dv
    · simp only [extensionConfigs, encodeDevBuyExtension, Except.ok.injEq] at h
      subst h
      cases vault <;> cases airdrop <;> simp [extensionKindOf]
    · rcases dv with ⟨eth, pk, outMin⟩ | ⟨eth, v3fee, outMin⟩
      · simp only [extensionConfigs, encodeDevBuyExtension, Except.ok.injEq] at h
        subst h
        cases vault <;> cases airdrop <;> simp [extensionKindOf]
      · rcases hv3 : cc.related.devbuyV3 with _ | v3addr
        · simp only [extensionConfigs, encodeDevBuyExtension, hv3, reduceCtorEq] at h
        · simp only [extensionConfigs, encodeDevBuyExtension, hv3, Except.ok.injEq] at h
          subst h
          cases vault <;> cases airdrop <;> simp [extensionKindOf]
  refine ⟨hmain, ?_⟩
  rw [hmain]
  cases vault <;> cases airdrop <;> cases devBuy <;> simp

-- A deployment-target configuration with every optional module present.
def ccAllModules : ClankerDeploymentV4 :=
  { address := "0xfactory"
    related :=
      { locker := "0xlocker"
        vault := "0xvaultext"
        airdrop := "0xairdropext"
        devbuy := "0xdevbuyext"
        devbuyV3 := some "0xdevbuyv3ext"
        feeStaticHook := "0xstatichook"
        feeDynamicHook := "0xdynamichook"
        feeStaticHookV2 := some "0xstatichookv2"
        feeDynamicHookV2 := some "0xdynamichookv2" } }

-- A parsed token configuration with vault, airdrop and devBuy all present.
def cfgAllExtensions : TokenConfigV4 :=
  { tokenAdmin := "0xadmin"
    poolExtensionAddress := "0x0000000000000000000000000000000000000000"
    poolExtensionInitData := "0x"
    pool := { tickIfToken0IsClanker := -230400, tickSpacing := 200,
              positions := [{ tickLower := -230400, tickUpper := -230200,
                              positionBps := 10000 }] }
    vault := some { percentage := 10, lockupDuration := 604800,
                    vestingDuration := 0, recipient := none }
    airdrop := some { admin := none, merkleRoot := "0xroot",
                      lockupDuration := 86400, vestingDuration := 0,
                      amount := 250000000 }
    devBuy := some (.v4 1
      { currency0 := "0x0000000000000000000000000000000000000000"
        currency1 := "0x0000000000000000000000000000000000000000"
        fee := 0, tickSpacing := 0
        hooks := "0x0000000000000000000000000000000000000000" } 0)
    fees := .static 100 200 }

/-- Witness for C4: with vault, airdrop and devBuy all present the composer
succeeds and emits exactly [vault, airdrop, devBuy]. -/
theorem extension_configs_fixed_order_witness :
    (extensionConfigs cfgAllExtensions ccAllModules).isOk = true ∧
    ((extensionConfigs cfgAllExtensions ccAllModules).toOption.getD []).map
        extensionKindOf =
      [ExtensionKind.vault, ExtensionKind.airdrop, ExtensionKind.devBuy] := by
  have h : extensionConfigs cfgAllExtensions ccAllModules =
      Except.ok ((extensionConfigs cfgAllExtensions ccAllModules).toOption.getD []) := by
    rfl
  have hm := extension_configs_fixed_order cfgAllExtensions ccAllModules
    ((extensionConfigs cfgAllExtensions ccAllModules).toOption.getD []) h
  exact ⟨rfl, by simpa [cfgAllExtensions] using hm.1⟩

/-! ## Fee/hook encoder (src/config/clankerTokenV4.ts lines 460-530) -/

structure FeeEncoding where
  hook : Address
  poolData : EncodedData
deriving DecidableEq

def encodeFeeConfig (cfg : TokenConfigV4) (cc : ClankerDeploymentV4) : FeeEncoding :=
  match cfg.fees with
  | .static clankerFee pairedFee =>
    let feeData := EncodedData.staticFeeHook (clankerFee * 100) (pairedFee * 100)
    match cc.related.feeStaticHookV2 with
    | some hookV2 =>
      { hook := hookV2
        poolData := .poolInitialization cfg.poolExtensionAddress
          cfg.poolExtensionInitData feeData }
    | none => { hook := cc.related.feeStaticHook, poolData := feeData }
  | .dynamic baseFee maxFee referenceTickFilterPeriod resetPeriod resetTickFilter
      feeControlNumerator decayFilterBps =>
    let feeData := EncodedData.dynamicFeeHook (baseFee * 100) (maxFee * 100)
      referenceTickFilterPeriod resetPeriod resetTickFilter feeControlNumerator
      decayFilterBps
    match cc.related.feeDynamicHookV2 with
    | some hookV2 =>
      { hook := hookV2
        poolData := .poolInitialization cfg.poolExtensionAddress
          cfg.poolExtensionInitData feeData }
    | none => { hook := cc.related.feeDynamicHook, poolData := feeData }

-- Strip the optional v4.1 pool-initialization wrapper to reach the fee block.
def feeBlockOf : EncodedData → EncodedData
  | .poolInitialization _ _ feeData => feeData
  | d => d

/-- Claim C5: for every fee variant and every deployment target (with or
without the v4.1 pool-initialization wrapper), the fee block encodes each
basis-point fee field rescaled by 100 (uniBps): the static variant encodes
clankerFee * 100 and pairedFee * 100, the dynamic variant encodes
baseFee * 100 and maxFee * 100 with the remaining fields unscaled; in
particular a static variant with clankerFee = 100 and pairedFee = 200
encodes the values 10,000 and 20,000. -/
theorem fee_encoding_rescales_by_100 :
    (∀ (cfg : TokenConfigV4) (cc : ClankerDeploymentV4),
      feeBlockOf (encodeFeeConfig cfg cc).poolData =
        match cfg.fees with
        | .static clankerFee pairedFee =>
          .staticFeeHook (clankerFee * 100) (pairedFee * 100)
        | .dynamic baseFee maxFee referenceTickFilterPeriod resetPeriod
            resetTickFilter feeControlNumerator decayFilterBps =>
          .dynamicFeeHook (baseFee * 100) (maxFee * 100) referenceTickFilterPeriod
            resetPeriod resetTickFilter feeControlNumerator decayFilterBps) ∧
    feeBlockOf (encodeFeeConfig cfgAllExtensions ccAllModules).poolData =
      EncodedData.staticFeeHook 10000 20000 := by
  constructor
  · intro cfg cc
    rcases hf : cfg.fees with ⟨cf, pf⟩ | ⟨bf, mf, rtfp, rp, rtf, fcn, dfb⟩
    · rcases hs : cc.related.feeStaticHookV2 with _ | hookV2 <;>
        simp [encodeFeeConfig, feeBlockOf, hf, hs]
    · rcases hd : cc.related.feeDynamicHookV2 with _ | hookV2 <;>
        simp [encodeFeeConfig, feeBlockOf, hf, hd]
  · rfl

/-! ## Error classifier (src/utils/errors.ts) -/

inductive ClankerErrorType
  | caller
  | state
  | unknown
deriving DecidableEq

structure ClankerErrorData where
  type : ClankerErrorType
  label : String
  rawName : String
deriving DecidableEq

-- ClankerError.unknown(e, name?): rawName is name || 'unknown', so an
-- absent or empty name falls back to "unknown".
def unknownErrorData (rawName : String) : ClankerErrorData :=
  { type := .unknown
    label := "Something went wrong"
    rawName := if rawName = "" then "unknown" else rawName }

-- The static name table (ErrorMapping, errors.ts lines 44-60).
def errorMappingLookup (errorName : String) : Option ClankerErrorData :=
  if errorName = "NoFeesToClaim" then
    some { type := .state, label := "No fees to claim", rawName := "NoFeesToClaim" }
  else if errorName = "InvalidVaultConfiguration" then
    some { type := .caller, label := "Invalid vault configuration",
           rawName := "InvalidVault" }
  else if errorName = "BaseFeeTooLow" then
    some { type := .caller, label := "Base fee is set too low",
           rawName := "BaseFeeTooLow" }
  else none

-- The static selector table (SignatureToError, errors.ts lines 31-42).
def signatureToErrorLookup (sig : String) : Option ClankerErrorData :=
  if sig = "0x7e5ba1ad" then
    some { type := .state, label := "Hook not enabled.", rawName := "HookNotEnabled" }
  else if sig = "0x8b063d73" then
    some { type := .state, label := "Too little received (likely dev buy).",
           rawName := "V4TooLittleReceived" }
  else none

-- The shapes a low-level failure can take once unwrapped by e.walk:
-- a thrown non-Error value, a plain Error, a viem BaseError containing a
-- decoded contract revert (with optional error name and optional selector),
-- a BaseError containing an insufficient-funds condition, or any other
-- BaseError.
inductive LowLevelFailure
  | notAnError (stringValue : String)
  | plainError (message : String)
  | baseRevert (errorName : Option String) (signature : Option String)
  | baseInsufficientFunds
  | baseOther
deriving DecidableEq

-- JavaScript signature || '0x': undefined and the empty string both fall
-- back to '0x'.
def signatureOrDefault (sig : Option String) : String :=
  match sig with
  | some s => if s = "" then "0x" else s
  | none => "0x"

-- understandError (errors.ts lines 73-100).
def understandError (e : LowLevelFailure) : ClankerErrorData :=
  match e with
  | .notAnError _ => unknownErrorData ""
  | .plainError _ => unknownErrorData ""
  | .baseRevert errorNameOpt signatureOpt =>
    let errorName := errorNameOpt.getD ""
    match errorMappingLookup errorName with
    | some mapping => mapping
    | none =>
      match signatureToErrorLookup (signatureOrDefault signatureOpt) with
      | some sigMapping => sigMapping
      | none => unknownErrorData errorName
  | .baseInsufficientFunds =>
    { type := .caller, label := "Insufficient funds.",
      rawName := "InsufficientFundsError" }
  | .baseOther => unknownErrorData ""

/-- Claim C6: the classifier is a three-tier lookup.  A decoded revert named
NoFeesToClaim maps to kind state with label "No fees to claim"; a revert
whose name misses the name table but whose selector is 0x7e5ba1ad maps to
kind state with label "Hook not enabled."; a revert missing both tables maps
to kind unknown with the raw revert name preserved. -/
theorem understand_error_three_tier_lookup (errorName sig : String) :
    understandError (.baseRevert (some "NoFeesToClaim") (some sig)) =
      { type := .state, label := "No fees to claim", rawName := "NoFeesToClaim" } ∧
    (errorMappingLookup errorName = none →
      understandError (.baseRevert (some errorName) (some "0x7e5ba1ad")) =
        { type := .state, label := "Hook not enabled.", rawName := "HookNotEnabled" }) ∧
    (errorMappingLookup errorName = none →
      signatureToErrorLookup (signatureOrDefault (some sig)) = none →
      errorName ≠ "" →
      understandError (.baseRevert (some errorName) (some sig)) =
        { type := .unknown, label := "Something went wrong", rawName := errorName }) := by
  refine ⟨rfl, ?_, ?_⟩
  · intro hname
    simp [understandError, hname, signatureOrDefault, signatureToErrorLookup]
  · intro hname hsig hne
    simp [understandError, hname, hsig, unknownErrorData, hne]

/-- Witness for C6: the revert name TotallyNovelRevert misses the name
table; with selector 0x7e5ba1ad it classifies as Hook not enabled, and with
the unmapped selector 0xdeadbeef it classifies as unknown, keeping the raw
name. -/
theorem understand_error_three_tier_lookup_witness :
    errorMappingLookup "TotallyNovelRevert" = none ∧
    signatureToErrorLookup (signatureOrDefault (some "0xdeadbeef")) = none ∧
    understandError (.baseRevert (some "NoFeesToClaim") (some "0xdeadbeef")) =
      { type := .state, label := "No fees to claim", rawName := "NoFeesToClaim" } ∧
    understandError (.baseRevert (some "TotallyNovelRevert") (some "0x7e5ba1ad")) =
      { type := .state, label := "Hook not enabled.", rawName := "HookNotEnabled" } ∧
    understandError (.baseRevert (some "TotallyNovelRevert") (some "0xdeadbeef")) =
      { type := .unknown, label := "Something went wrong",
        rawName := "TotallyNovelRevert" } := by
  have h := understand_error_three_tier_lookup "TotallyNovelRevert" "0xdeadbeef"
  exact ⟨by decide, by decide, h.1, h.2.1 (by decide),
    h.2.2 (by decide) (by decide) (by decide)⟩

/-! ## Transaction execution pipeline
(src/utils/write-clanker-contracts.ts lines 53-140)

Each operation calls the chain client inside try/catch; the outcome of the
underlying client call is a parameter (Except: ok value or thrown failure),
and the operation itself is a total function into the result-tuple record
ClankerResult = { success fields } | { error }. -/

structure ClankerCallResult (A : Type) where
  success : Option A
  error : Option ClankerErrorData
deriving DecidableEq

-- estimateGasClankerContract (lines 53-73): returns { gas } or
-- { error: understandError(e) }.
def estimateGasClankerContract (outcome : Except LowLevelFailure Nat) :
    ClankerCallResult Nat :=
  match outcome with
  | .ok gas => { success := some gas, error := none }
  | .error e => { success := none, error := some (understandError e) }

-- simulateClankerContract (lines 83-103): returns the simulation result or
-- { error: understandError(e) }.
def simulateClankerContract {A : Type} (outcome : Except LowLevelFailure A) :
    ClankerCallResult A :=
  match outcome with
  | .ok result => { success := some result, error := none }
  | .error e => { success := none, error := some (understandError e) }

-- writeClankerContract (lines 114-140): when options.simulate is set, run
-- the simulation first and short-circuit on its error; then submit inside
-- try/catch.
def writeClankerContract (simulateOption : Bool)
    (simOutcome : Except LowLevelFailure Nat)
    (writeOutcome : Except LowLevelFailure String) : ClankerCallResult String :=
  if simulateOption then
    match (simulateClankerContract simOutcome).error with
    | some err => { success := none, error := some err }
    | none =>
      match writeOutcome with
      | .ok txHash => { success := some txHash, error := none }
      | .error e => { success := none, error := some (understandError e) }
  else
    match writeOutcome with
    | .ok txHash => { success := some txHash, error := none }
    | .error e => { success := none, error := some (understandError e) }

-- Exactly one of the two result-tuple shapes.
def resultTupleShape {A : Type} (r : ClankerCallResult A) : Prop :=
  (r.success.isSome = true ∧ r.error = none) ∨
  (r.success = none ∧ r.error.isSome = true)

/-- Claim C7: gas estimation, simulation and submission each return a result
tuple that is exactly one of success-with-no-error or no-success-with-error,
and an on-chain failure is classified and returned in the error field (the
operations are total functions: the failure never escapes as an exception).
-/
theorem chain_ops_return_result_tuples :
    (∀ outcome : Except LowLevelFailure Nat,
      resultTupleShape (estimateGasClankerContract outcome)) ∧
    (∀ (A : Type) (outcome : Except LowLevelFailure A),
      resultTupleShape (simulateClankerContract outcome)) ∧
    (∀ (simulateOption : Bool) (simOutcome : Except LowLevelFailure Nat)
        (writeOutcome : Except LowLevelFailure String),
      resultTupleShape (writeClankerContract simulateOption simOutcome writeOutcome)) ∧
    (∀ e : LowLevelFailure,
      estimateGasClankerContract (.error e) =
        { success := none, error := some (understandError e) }) ∧
    (∀ (A : Type) (e : LowLevelFailure),
      simulateClankerContract (A := A) (.error e) =
        { success := none, error := some (understandError e) }) ∧
    (∀ (simulateOption : Bool) (simValue : Nat) (e : LowLevelFailure),
      writeClankerContract simulateOption (.ok simValue) (.error e) =
        { success := none, error := some (understandError e) }) := by
  refine ⟨?_, ?_, ?_, ?_, ?_, ?_⟩
  · intro outcome
    cases outcome <;> simp [estimateGasClankerContract, resultTupleShape]
  · intro A outcome
    cases outcome <;> simp [simulateClankerContract, resultTupleShape]
  · intro simulateOption simOutcome writeOutcome
    cases simulateOption <;> cases simOutcome <;> cases writeOutcome <;>
      simp [writeClankerContract, simulateClankerContract, resultTupleShape]
  · intro e
    rfl
  · intro A e
    rfl
  · intro simulateOption simValue e
    cases simulateOption <;> rfl

/-! ## Deployment pipeline (src/deployment/deploy.ts, deployToken) -/

-- deployToken: programmer-usage guards throw (the outer Except layer);
-- then gas estimation, then writeClankerContract with simulate: true (the
-- gas buffer gas * 12n / 10n only affects the submitted transaction, not
-- the result shape).
def deployToken (hasAccount : Bool) (txChainId pubChainId walChainId : Nat)
    (estimateOutcome : Except LowLevelFailure Nat)
    (simOutcome : Except LowLevelFailure Nat)
    (writeOutcome : Except LowLevelFailure String) :
    Except String (ClankerCallResult String) :=
  if hasAccount = false then
    .error "Wallet account required for deployToken"
  else if txChainId ≠ pubChainId then
    .error "Token chainId does not match public client chainId"
  else if txChainId ≠ walChainId then
    .error "Token chainId does not match wallet chainId"
  else
    match estimateGasClankerContract estimateOutcome with
    | { success := _, error := some gasError } =>
      .ok { success := none, error := some gasError }
    | { success := _, error := none } =>
      .ok (writeClankerContract true simOutcome writeOutcome)

/-- Claim C8: when the pre-submission simulation fails, deployToken never
reaches the submission step: the result is independent of the submission
outcome, carries no transaction hash, and returns the classified simulation
error as data (an ok result tuple, not a thrown error). -/
theorem failed_simulation_short_circuits_submission (c gas : Nat)
    (e : LowLevelFailure) (writeOutcome writeOutcome2 : Except LowLevelFailure String) :
    deployToken true c c c (.ok gas) (.error e) writeOutcome =
      .ok { success := none, error := some (understandError e) } ∧
    deployToken true c c c (.ok gas) (.error e) writeOutcome =
      deployToken true c c c (.ok gas) (.error e) writeOutcome2 := by
  constructor
  · simp [deployToken, estimateGasClankerContract, writeClankerContract,
      simulateClankerContract]
  · simp [deployToken, estimateGasClankerContract, writeClankerContract,
      simulateClankerContract]

/-! ## Confirmation step: TokenCreated log extraction
(src/deployment/deploy.ts, the waitForTransaction closure returned by
deployToken) -/

-- A receipt log either decodes as the TokenCreated event of the factory
-- abi (parseEventLogs keeps it, exposing args.tokenAddress) or it does not
-- (parseEventLogs drops it).
inductive ReceiptLog
  | tokenCreated (tokenAddress : Address)
  | otherLog (payload : String)
deriving DecidableEq

-- parseEventLogs({ abi, eventName: TokenCreated, logs }).
def parseTokenCreatedLogs (logs : List ReceiptLog) : List Address :=
  logs.filterMap (fun l =>
    match l with
    | .tokenCreated a => some a
    | .otherLog _ => none)

-- { address: logs[0].args.tokenAddress }: indexing an empty JavaScript
-- array yields undefined and reading .args of it throws a TypeError, which
-- rejects the waitForTransaction promise.
def waitForTransactionResult (logs : List ReceiptLog) : Except String Address :=
  match parseTokenCreatedLogs logs with
  | [] => .error "TypeError: cannot read properties of undefined (reading args)"
  | a :: _ => .ok a

/-- Claim C9: the confirmation step filters the receipt logs for the
TokenCreated event and returns the address of the first matching entry; with
zero matching entries it surfaces an error (the thrown TypeError) instead of
returning an undefined address, and it only ever returns an address that
heads the filtered matches. -/
theorem token_created_log_extraction :
    (∀ logs : List ReceiptLog, parseTokenCreatedLogs logs = [] →
      waitForTransactionResult logs =
        .error "TypeError: cannot read properties of undefined (reading args)") ∧
    (∀ (logs : List ReceiptLog) (a : Address) (rest : List Address),
      parseTokenCreatedLogs logs = a :: rest →
      waitForTransactionResult logs = .ok a) ∧
    (∀ (logs : List ReceiptLog) (a : Address),
      waitForTransactionResult logs = .ok a →
      ∃ rest, parseTokenCreatedLogs logs = a :: rest) := by
  refine ⟨?_, ?_, ?_⟩
  · intro logs hempty
    simp [waitForTransactionResult, hempty]
  · intro logs a rest hcons
    simp [waitForTransactionResult, hcons]
  · intro logs a hok
    unfold waitForTransactionResult at hok
    rcases hp : parseTokenCreatedLogs logs with _ | ⟨b, rest⟩
    · rw [hp] at hok
      cases hok
    · rw [hp] at hok
      injection hok with hba
      exact ⟨rest, by rw [hba]⟩

/-- Witness for C9: a receipt with no matching log surfaces the error; a
receipt whose second entry is the TokenCreated event returns that address. -/
theorem token_created_log_extraction_witness :
    parseTokenCreatedLogs [ReceiptLog.otherLog "Transfer"] = [] ∧
    waitForTransactionResult [ReceiptLog.otherLog "Transfer"] =
      .error "TypeError: cannot read properties of undefined (reading args)" ∧
    parseTokenCreatedLogs
      [ReceiptLog.otherLog "Transfer", ReceiptLog.tokenCreated "0xabc"] = ["0xabc"] ∧
    waitForTransactionResult
      [ReceiptLog.otherLog "Transfer", ReceiptLog.tokenCreated "0xabc"] = .ok "0xabc" :=
  ⟨rfl, token_created_log_extraction.1 _ rfl, rfl,
    token_created_log_extraction.2.1 _ "0xabc" [] rfl⟩

/-! ## Vault claimable amount (Clanker.getVaultClaimableAmount) -/

-- The value caught by the catch clause: either an object (whose name and
-- message properties may be absent or of the wrong type, modelled as
-- Option) or a non-object value.
inductive ThrownValue
  | objectWith (name : Option String) (message : Option String)
  | nonObject (stringValue : String)
deriving DecidableEq

-- The guard of the catch clause: err is an object, err.name is one of the
-- two contract-read error names, and err.message is a string containing
-- "returned no data".
def vaultNoDataCondition (t : ThrownValue) : Bool :=
  match t with
  | .objectWith (some errName) (some message) =>
    (errName == "ContractFunctionExecutionError" ||
     errName == "ContractFunctionZeroDataError") &&
    strContains message "returned no data"
  | _ => false

-- getVaultClaimableAmount: return the contract read result; on a thrown
-- failure matching the guard return 0n, otherwise rethrow the failure.
def getVaultClaimableAmount (readOutcome : Except ThrownValue Nat) :
    Except ThrownValue Nat :=
  match readOutcome with
  | .ok amount => .ok amount
  | .error err => if vaultNoDataCondition err then .ok 0 else .error err

/-- Claim C10: on a failed contract read, getVaultClaimableAmount returns 0
exactly when the failure is an object named ContractFunctionExecutionError
or ContractFunctionZeroDataError whose message contains "returned no data";
every other failure is rethrown unchanged, and successful reads pass
through. -/
theorem vault_claimable_zero_on_no_data (err : ThrownValue) :
    (getVaultClaimableAmount (.error err) = .ok 0 ↔
      vaultNoDataCondition err = true) ∧
    (vaultNoDataCondition err = false →
      getVaultClaimableAmount (.error err) = .error err) ∧
    (∀ amount : Nat, getVaultClaimableAmount (.ok amount) = .ok amount) := by
  refine ⟨?_, ?_, fun amount => rfl⟩
  · by_cases h : vaultNoDataCondition err = true <;>
      simp [getVaultClaimableAmount, h]
  · intro h
    simp [getVaultClaimableAmount, h]

/-- Witness for C10: a zero-data read error returns 0; an unrelated failure
is rethrown unchanged. -/
theorem vault_claimable_zero_on_no_data_witness :
    vaultNoDataCondition (ThrownValue.objectWith
      (some "ContractFunctionZeroDataError")
      (some "The contract function returned no data.")) = true ∧
    getVaultClaimableAmount (.error (ThrownValue.objectWith
      (some "ContractFunctionZeroDataError")
      (some "The contract function returned no data."))) = .ok 0 ∧
    vaultNoDataCondition (ThrownValue.objectWith
      (some "UserRejectedRequestError") (some "rejected")) = false ∧
    getVaultClaimableAmount (.error (ThrownValue.objectWith
      (some "UserRejectedRequestError") (some "rejected"))) =
      .error (ThrownValue.objectWith
        (some "UserRejectedRequestError") (some "rejected")) := by
  refine ⟨by decide, ?_, by decide, ?_⟩
  · exact (vault_claimable_zero_on_no_data _).1.mpr (by decide)
  · exact (vault_claimable_zero_on_no_data _).2.1 (by decide)

/-- Witness for C2, at the spec example A = 33,333,334 whole tokens: the
share rounds up to 4 basis points, the verification is at least the
requested wei amount, and the step does not raise the under-allocation
error. -/
theorem airdrop_share_ceiling_never_under_allocates_witness :
    bpsAirdropped (airdropAmountWei 33333334) = 4 ∧
    airdropAmountWei 33333334 ≤ roundingVerificationAirdrop (airdropAmountWei 33333334) ∧
    airdropBpsStep 33333334 ≠ Except.error AirdropPrecisionError.tooLow := by
  have h := airdrop_share_ceiling_never_under_allocates 33333334
  refine ⟨?_, h.2.1, h.2.2.2⟩
  rw [h.1]
  norm_num [airdropAmountWei, DEFAULT_SUPPLY]
